import Mathlib

/-!
Shallow embedding of the MediaPipe Holistic C bridge
(`cpp_core/mediapipe_bridge.cc`, `cpp_core/mediapipe_bridge.h`).

Modelling conventions:
- C pointers to landmark arrays become `Option (List MPLandmark)`:
  `none` is a null pointer, `some a` an owned heap array with contents `a`.
- The engine-native landmark protos (`NormalizedLandmark` / `Landmark`)
  become `SrcLandmark`; their optional `visibility` / `presence` fields
  become `Option Rat` (`none` when `has_visibility()` is false).
- `float` fields carry no arithmetic in the bridge (values are only copied
  or defaulted), so they are modelled exactly as `Rat`.
- The `int64_t` frame counter is `Int`; C++ signed division truncates
  toward zero, which is `Int.tdiv`.
- The thread-local `MPError` message buffer (`char message[256]`) is a
  `List Nat` of byte values of length 256; the null byte is `0`.
- The graph is external: one `MP_Process` call is modelled as a function of
  the poll outcome of each of the five output streams
  (`Option (List SrcLandmark)`: `none` = no packet pending) and of the
  status of `AddPacketToInputStream` (`submitOk : Bool`).
-/

/-- Engine-native landmark entry (`mediapipe::NormalizedLandmark` or
`mediapipe::Landmark`): position always present, visibility and presence
optional (`has_visibility()` / `has_presence()`). -/
structure SrcLandmark where
  x : Rat
  y : Rat
  z : Rat
  visibility : Option Rat
  presence : Option Rat
deriving DecidableEq

/-- `MPLandmark` from `mediapipe_bridge.h`: five floats, fixed order. -/
structure MPLandmark where
  x : Rat
  y : Rat
  z : Rat
  visibility : Rat
  presence : Rat
deriving DecidableEq

/-- `MPResults` from `mediapipe_bridge.h`: five (array pointer, count)
channel pairs plus metadata fields. -/
structure MPResults where
  face_landmarks : Option (List MPLandmark)
  face_count : Nat
  left_hand_landmarks : Option (List MPLandmark)
  left_hand_count : Nat
  right_hand_landmarks : Option (List MPLandmark)
  right_hand_count : Nat
  pose_landmarks : Option (List MPLandmark)
  pose_count : Nat
  pose_world_landmarks : Option (List MPLandmark)
  pose_world_count : Nat
  timestamp_ms : Int
  processing_time_ms : Rat
  face_detected : Bool
  hands_detected : Bool
  pose_detected : Bool
deriving DecidableEq

/-- `memset(results, 0, sizeof(MPResults))`: every pointer null, every
count zero, every flag false, metadata zero. -/
def zeroResults : MPResults :=
  { face_landmarks := none, face_count := 0
    left_hand_landmarks := none, left_hand_count := 0
    right_hand_landmarks := none, right_hand_count := 0
    pose_landmarks := none, pose_count := 0
    pose_world_landmarks := none, pose_world_count := 0
    timestamp_ms := 0, processing_time_ms := 0
    face_detected := false, hands_detected := false, pose_detected := false }

/-- Body of the conversion loop shared by `ConvertLandmarks` and
`ConvertWorldLandmarks`: copy x, y, z; `visibility` and `presence` are
taken from the source when `has_visibility()`/`has_presence()` and
default to 1.0 otherwise. -/
def convertEntry (lm : SrcLandmark) : MPLandmark :=
  { x := lm.x, y := lm.y, z := lm.z
    visibility := lm.visibility.getD 1
    presence := lm.presence.getD 1 }

/-- `ConvertLandmarks` (mediapipe_bridge.cc lines 43-62): sets
`*out_count = landmark_size()`; returns null when the count is 0,
otherwise a fresh array filled in source order. The returned pair is
(array pointer, value written to `*out_count`). -/
def ConvertLandmarks (landmarks : List SrcLandmark) :
    Option (List MPLandmark) × Nat :=
  let count := landmarks.length
  if count = 0 then (none, count)
  else (some (landmarks.map convertEntry), count)

/-- `ConvertWorldLandmarks` (mediapipe_bridge.cc lines 65-84): identical
loop over `mediapipe::LandmarkList` (world coordinates). -/
def ConvertWorldLandmarks (landmarks : List SrcLandmark) :
    Option (List MPLandmark) × Nat :=
  let count := landmarks.length
  if count = 0 then (none, count)
  else (some (landmarks.map convertEntry), count)

/-- Thread-local `MPError` (mediapipe_bridge.h lines 69-72): an int code
and a `char message[256]` buffer, modelled as a list of exactly 256 byte
values. -/
structure MPError where
  code : Int
  message : List Nat
deriving DecidableEq

/-- Initial thread-local error state `g_last_error = {0, ""}`
(zero-initialized buffer). -/
def initialError : MPError :=
  { code := 0, message := List.replicate 256 0 }

/-- Model of `strncpy(dst, src, n)` into a buffer observed over its first
`n` bytes: copies at most `n` bytes of `src` and pads with null bytes when
`src` is shorter (the source string itself contains no null byte). -/
def strncpyBytes (src : List Nat) (n : Nat) : List Nat :=
  src.take n ++ List.replicate (n - src.length) 0

/-- `SetError` (mediapipe_bridge.cc lines 31-35): stores the code, copies
the message with `strncpy(..., sizeof(message) - 1)` and forces a null
byte at the final index. -/
def SetError (code : Int) (msg : List Nat) (_e : MPError) : MPError :=
  { code := code, message := strncpyBytes msg 255 ++ [0] }

/-- `ClearError` (mediapipe_bridge.cc lines 37-40): code 0, first byte of
the message buffer set to null (the rest is untouched). -/
def ClearError (e : MPError) : MPError :=
  { code := 0, message := e.message.set 0 0 }

/-- The C string stored in a message buffer: bytes up to (excluding) the
first null byte. -/
def cString (buf : List Nat) : List Nat :=
  buf.takeWhile (fun b => decide (b ≠ 0))

/-- Byte encoding of a C++ string literal. -/
def strBytes (s : String) : List Nat :=
  s.toList.map Char.toNat

/-- `MP_ReleaseResults` (mediapipe_bridge.cc lines 274-284): null record
pointer is a no-op; otherwise `delete[]` each of the five channel arrays
(`delete[]` of a null pointer frees nothing) and `memset` the record to
zero. The model also returns how many non-null arrays were deallocated,
so that double-free behaviour is observable. -/
def MP_ReleaseResults (results : Option MPResults) :
    Option MPResults × Nat :=
  match results with
  | none => (none, 0)
  | some r =>
    let freed :=
      [r.face_landmarks, r.left_hand_landmarks, r.right_hand_landmarks,
       r.pose_landmarks, r.pose_world_landmarks].countP Option.isSome
    (some zeroResults, freed)

/-- `MP_GetLastError` (mediapipe_bridge.cc lines 286-289): ignores the
handle and returns the thread-local error record. -/
def MP_GetLastError (_handle : Option Int) (e : MPError) : MPError := e

/-- One non-blocking poll outcome per output stream of the graph, for one
`FetchResults` pass: `none` when `GetPacket` found no pending packet,
`some lms` when a packet with landmark list `lms` was pending. -/
structure ChannelOutputs where
  face : Option (List SrcLandmark)
  left_hand : Option (List SrcLandmark)
  right_hand : Option (List SrcLandmark)
  pose : Option (List SrcLandmark)
  pose_world : Option (List SrcLandmark)
deriving DecidableEq

/-- Face block of `FetchResults` (mediapipe_bridge.cc lines 183-191):
convert the packet when present; `face_detected = face_count > 0`. -/
def fetchFace (pkt : Option (List SrcLandmark)) (r : MPResults) : MPResults :=
  match pkt with
  | none => r
  | some lms =>
    let conv := ConvertLandmarks lms
    { r with face_landmarks := conv.1, face_count := conv.2
             face_detected := decide (0 < conv.2) }

/-- Left-hand block of `FetchResults` (mediapipe_bridge.cc lines 193-201):
note `hands_detected` is set to `true` whenever a packet is pending,
independently of the converted count. -/
def fetchLeftHand (pkt : Option (List SrcLandmark)) (r : MPResults) : MPResults :=
  match pkt with
  | none => r
  | some lms =>
    let conv := ConvertLandmarks lms
    { r with left_hand_landmarks := conv.1, left_hand_count := conv.2
             hands_detected := true }

/-- Right-hand block of `FetchResults` (mediapipe_bridge.cc lines 203-211):
same unconditional `hands_detected = true` as the left-hand block. -/
def fetchRightHand (pkt : Option (List SrcLandmark)) (r : MPResults) : MPResults :=
  match pkt with
  | none => r
  | some lms =>
    let conv := ConvertLandmarks lms
    { r with right_hand_landmarks := conv.1, right_hand_count := conv.2
             hands_detected := true }

/-- Pose block of `FetchResults` (mediapipe_bridge.cc lines 213-221):
`pose_detected = pose_count > 0`. -/
def fetchPose (pkt : Option (List SrcLandmark)) (r : MPResults) : MPResults :=
  match pkt with
  | none => r
  | some lms =>
    let conv := ConvertLandmarks lms
    { r with pose_landmarks := conv.1, pose_count := conv.2
             pose_detected := decide (0 < conv.2) }

/-- Pose-world block of `FetchResults` (mediapipe_bridge.cc lines 223-230):
uses `ConvertWorldLandmarks` and gates no detection flag. -/
def fetchPoseWorld (pkt : Option (List SrcLandmark)) (r : MPResults) : MPResults :=
  match pkt with
  | none => r
  | some lms =>
    let conv := ConvertWorldLandmarks lms
    { r with pose_world_landmarks := conv.1, pose_world_count := conv.2 }

/-- `MediaPipeProcessor::FetchResults` (mediapipe_bridge.cc lines 182-231):
the five channel polls in source order. -/
def FetchResults (outs : ChannelOutputs) (r : MPResults) : MPResults :=
  fetchPoseWorld outs.pose_world
    (fetchPose outs.pose
      (fetchRightHand outs.right_hand
        (fetchLeftHand outs.left_hand
          (fetchFace outs.face r))))

/-- `MediaPipeProcessor::Process` (mediapipe_bridge.cc lines 127-179) on
its non-throwing paths. Inputs beyond the processor state: whether the
`pixels` and `results` pointers are null, the status of
`AddPacketToInputStream` (`submitOk`, with the status message text
`submitMsg`), the per-channel poll outcomes, and the measured wall-clock
duration `ptime`. The state is the `frame_count_` field; the result is
(return value, new `frame_count_`, the record pointed to by `results`
after the call, thread-local error after the call). -/
def ProcessImpl (pixelsNull resultsNull : Bool) (submitOk : Bool)
    (submitMsg : List Nat) (outs : ChannelOutputs) (ptime : Rat)
    (fc : Int) (results : MPResults) (err : MPError) :
    Bool × Int × MPResults × MPError :=
  if pixelsNull || resultsNull then
    (false, fc, results, SetError 1 (strBytes "Invalid arguments") err)
  else
    let r0 := zeroResults
    let timestamp := fc
    let fc2 := fc + 1
    if submitOk then
      let r1 := FetchResults outs r0
      let r2 := { r1 with processing_time_ms := ptime
                          timestamp_ms := timestamp.tdiv 1000 }
      (true, fc2, r2, ClearError err)
    else
      (false, fc2, r0,
       SetError 2 (strBytes "Failed to add packet: " ++ submitMsg) err)

/-- `MP_Process` (mediapipe_bridge.cc lines 258-272): null handle sets
error 20 and returns false without touching the record; otherwise
delegates to `MediaPipeProcessor::Process`. The handle is `none` (null)
or `some fc` (a processor whose `frame_count_` is `fc`). -/
def MP_Process (handle : Option Int) (pixelsNull resultsNull : Bool)
    (submitOk : Bool) (submitMsg : List Nat) (outs : ChannelOutputs)
    (ptime : Rat) (results : MPResults) (err : MPError) :
    Bool × Option Int × MPResults × MPError :=
  match handle with
  | none => (false, none, results, SetError 20 (strBytes "Invalid handle") err)
  | some fc =>
    let out := ProcessImpl pixelsNull resultsNull submitOk submitMsg outs
      ptime fc results err
    (out.1, some out.2.1, out.2.2.1, out.2.2.2)

/-- Trace of `N` consecutive successful `MP_Process` calls on one
processor instance starting from counter `fc`: the list of result records
seen by the caller, each call reusing a released (all-zero) record. -/
def runProcess (outs : ChannelOutputs) : Nat → Int → List MPResults
  | 0, _ => []
  | Nat.succ n, fc =>
    let step := ProcessImpl false false true [] outs 0 fc zeroResults initialError
    step.2.2.1 :: runProcess outs n step.2.1

/-- Reported `timestamp_ms` sequence of a run of successful calls. -/
def reportedTimestamps (outs : ChannelOutputs) (n : Nat) (fc : Int) : List Int :=
  (runProcess outs n fc).map MPResults.timestamp_ms


-- ===========================================================================
-- Helper lemmas
-- ===========================================================================

/-- Both branches of `ConvertLandmarks` write `landmark_size()` to the
out-count. -/
theorem ConvertLandmarks_count (l : List SrcLandmark) :
    (ConvertLandmarks l).2 = l.length := by
  simp only [ConvertLandmarks]
  split <;> rfl

/-- World conversion is the same function body. -/
theorem ConvertWorldLandmarks_eq (l : List SrcLandmark) :
    ConvertWorldLandmarks l = ConvertLandmarks l := rfl

/-- The returned array pointer is null exactly when the count is zero. -/
theorem ConvertLandmarks_fst_eq_none_iff (l : List SrcLandmark) :
    (ConvertLandmarks l).1 = none ↔ l.length = 0 := by
  simp only [ConvertLandmarks]
  split <;> simp_all

/-- Non-empty input yields the 1:1 converted array. -/
theorem ConvertLandmarks_pos (l : List SrcLandmark) (h : l ≠ []) :
    ConvertLandmarks l = (some (l.map convertEntry), l.length) := by
  simp only [ConvertLandmarks]
  rw [if_neg (by simpa using h)]

-- ===========================================================================
-- Claim C5
-- ===========================================================================

/-- C5: a landmark list with zero entries converts to a null array pointer
and count 0, never a non-null zero-length allocation, on both the
normalized-coordinate and the world-coordinate conversion paths. -/
theorem c5_empty_converts_to_null (l : List SrcLandmark) (h : l.length = 0) :
    ConvertLandmarks l = (none, 0) ∧ ConvertWorldLandmarks l = (none, 0) := by
  rw [ConvertWorldLandmarks_eq]
  simp only [ConvertLandmarks]
  rw [if_pos h, h]
  exact ⟨rfl, rfl⟩

/-- C5 witness: the empty landmark list. -/
theorem c5_empty_converts_to_null_witness :
    ([] : List SrcLandmark).length = 0 ∧
    (ConvertLandmarks [] = (none, 0) ∧ ConvertWorldLandmarks [] = (none, 0)) :=
  ⟨by decide, c5_empty_converts_to_null [] (by decide)⟩

-- ===========================================================================
-- Claim C6
-- ===========================================================================

/-- Contract of the conversion of a non-empty list: count equals the
source length, the array exists with the same length, and entry i copies
entry i of the source with x, y, z unchanged and visibility/presence
defaulting to 1 when the source omits them. -/
def ConvertCopiesSpec (l : List SrcLandmark) : Prop :=
  (ConvertLandmarks l).2 = l.length ∧
  ∃ arr, (ConvertLandmarks l).1 = some arr ∧ arr.length = l.length ∧
    ∀ i (hia : i < arr.length) (hil : i < l.length),
      (arr.get ⟨i, hia⟩).x = (l.get ⟨i, hil⟩).x ∧
      (arr.get ⟨i, hia⟩).y = (l.get ⟨i, hil⟩).y ∧
      (arr.get ⟨i, hia⟩).z = (l.get ⟨i, hil⟩).z ∧
      (arr.get ⟨i, hia⟩).visibility = (l.get ⟨i, hil⟩).visibility.getD 1 ∧
      (arr.get ⟨i, hia⟩).presence = (l.get ⟨i, hil⟩).presence.getD 1

/-- C6: for every non-empty landmark list the conversion returns an array
of exactly the source length whose entry i copies entry i of the source in
order, with visibility and presence taken from the source entry when
present and defaulting to exactly 1.0 when absent. -/
theorem c6_convert_copies_in_order (l : List SrcLandmark) (h : l ≠ []) :
    ConvertCopiesSpec l := by
  refine ⟨ConvertLandmarks_count l, l.map convertEntry, ?_, by simp, ?_⟩
  · rw [ConvertLandmarks_pos l h]
  · intro i hia hil
    simp [List.get_eq_getElem, List.getElem_map, convertEntry]

/-- C6 witness: a concrete two-entry list, one entry with explicit
visibility/presence and one with both omitted. -/
theorem c6_convert_copies_in_order_witness :
    ([⟨1/2, 1/3, 2, none, some (3/4)⟩, ⟨0, 1, 0, some 0, none⟩] :
      List SrcLandmark) ≠ [] ∧
    ConvertCopiesSpec
      [⟨1/2, 1/3, 2, none, some (3/4)⟩, ⟨0, 1, 0, some 0, none⟩] :=
  ⟨by decide, c6_convert_copies_in_order _ (by decide)⟩

-- ===========================================================================
-- Claim C3
-- ===========================================================================

/-- All-zero observable state of the five channels of a result record. -/
def channelsCleared (r : MPResults) : Prop :=
  r.face_landmarks = none ∧ r.face_count = 0 ∧
  r.left_hand_landmarks = none ∧ r.left_hand_count = 0 ∧
  r.right_hand_landmarks = none ∧ r.right_hand_count = 0 ∧
  r.pose_landmarks = none ∧ r.pose_count = 0 ∧
  r.pose_world_landmarks = none ∧ r.pose_world_count = 0

/-- C3: releasing any result record leaves every channel array pointer
null and every count zero, and releasing the resulting all-zero record a
second time frees nothing and leaves the same all-zero state. -/
theorem c3_release_clears_and_idempotent (r : MPResults) :
    (MP_ReleaseResults (some r)).1 = some zeroResults ∧
    channelsCleared zeroResults ∧
    MP_ReleaseResults (some zeroResults) = (some zeroResults, 0) := by
  exact ⟨rfl, ⟨rfl, rfl, rfl, rfl, rfl, rfl, rfl, rfl, rfl, rfl⟩, rfl⟩

/-- C3 witness: release of a record holding one allocated channel. -/
theorem c3_release_clears_and_idempotent_witness :
    (MP_ReleaseResults (some { zeroResults with
        face_landmarks := some [⟨0, 0, 0, 1, 1⟩], face_count := 1,
        face_detected := true })).1 = some zeroResults ∧
    channelsCleared zeroResults ∧
    MP_ReleaseResults (some zeroResults) = (some zeroResults, 0) :=
  c3_release_clears_and_idempotent _

-- ===========================================================================
-- Claim C10
-- ===========================================================================

/-- C10: releasing a null record pointer is a safe no-op that frees
nothing and changes no state. -/
theorem c10_release_null_noop : MP_ReleaseResults none = (none, 0) := rfl

-- ===========================================================================
-- Claim C7
-- ===========================================================================

/-- C7: a process call on a null handle returns false, leaves the result
record untouched, and stores error code 20, a non-zero code that
MP_GetLastError returns immediately afterward. -/
theorem c7_null_handle_contained (pixelsNull resultsNull submitOk : Bool)
    (submitMsg : List Nat) (outs : ChannelOutputs) (ptime : Rat)
    (results : MPResults) (err : MPError) :
    (MP_Process none pixelsNull resultsNull submitOk submitMsg outs ptime
        results err).1 = false ∧
    (MP_Process none pixelsNull resultsNull submitOk submitMsg outs ptime
        results err).2.2.1 = results ∧
    (MP_GetLastError none
        (MP_Process none pixelsNull resultsNull submitOk submitMsg outs ptime
          results err).2.2.2).code = 20 ∧
    (MP_GetLastError none
        (MP_Process none pixelsNull resultsNull submitOk submitMsg outs ptime
          results err).2.2.2).code ≠ 0 := by
  refine ⟨rfl, rfl, rfl, ?_⟩
  simp [MP_Process, MP_GetLastError, SetError]

-- ===========================================================================
-- Claim C4
-- ===========================================================================

/-- C4: every process call that reaches timestamp assignment (non-null
handle, pixels and results) advances the frame counter by exactly 1,
whether or not the subsequent packet submission succeeds; a SubmitError
does not roll the counter back. -/
theorem c4_counter_advances_once (fc : Int) (submitOk : Bool)
    (submitMsg : List Nat) (outs : ChannelOutputs) (ptime : Rat)
    (results : MPResults) (err : MPError) :
    (MP_Process (some fc) false false submitOk submitMsg outs ptime
        results err).2.1 = some (fc + 1) := by
  cases submitOk <;> rfl

-- ===========================================================================
-- Claim C8
-- ===========================================================================

/-- A list whose elements all satisfy a predicate passes through takeWhile
unchanged ahead of any suffix. -/
theorem takeWhile_append_all {α : Type} {p : α → Bool} {l1 l2 : List α}
    (h : ∀ x ∈ l1, p x = true) :
    (l1 ++ l2).takeWhile p = l1 ++ l2.takeWhile p := by
  induction l1 with
  | nil => rfl
  | cons a l ih =>
    simp only [List.cons_append, List.takeWhile_cons, h a (by simp)]
    rw [ih (fun x hx => h x (by simp [hx]))]
    simp

/-- The stored buffer after SetError, decomposed as the truncated message
followed by null padding. -/
theorem SetError_message_eq (code : Int) (msg : List Nat) (e : MPError) :
    (SetError code msg e).message =
      msg.take 255 ++ List.replicate (255 - msg.length + 1) 0 := by
  simp only [SetError, strncpyBytes, List.append_assoc]
  rw [← List.replicate_succ' (n := 255 - msg.length)]

/-- Contract of SetError for a message with no interior null byte: the
code is stored, the buffer keeps its full fixed size of 256 bytes with a
null final byte, the stored C string is the message truncated to 255
bytes, and the previous contents of the slot do not matter. -/
def SetErrorSpec (code : Int) (msg : List Nat) : Prop :=
  ∀ e1 e2 : MPError,
    (SetError code msg e1).code = code ∧
    (SetError code msg e1).message.length = 256 ∧
    (SetError code msg e1).message.getLast? = some 0 ∧
    cString (SetError code msg e1).message = msg.take 255 ∧
    SetError code msg e1 = SetError code msg e2

/-- C8: for every error code and message of any length, SetError stores
the message truncated to the fixed maximum buffer length with guaranteed
null termination inside the fixed 256-byte buffer, and overwrites the
previous last-error slot regardless of its contents. -/
theorem c8_seterror_truncates (code : Int) (msg : List Nat)
    (h : 0 ∉ msg) : SetErrorSpec code msg := by
  intro e1 e2
  refine ⟨rfl, ?_, ?_, ?_, rfl⟩
  · simp only [SetError, strncpyBytes, List.length_append, List.length_take,
      List.length_replicate, List.length_cons, List.length_nil]
    omega
  · rw [SetError_message_eq]
    rw [List.replicate_succ' (n := 255 - msg.length), ← List.append_assoc]
    simp
  · rw [SetError_message_eq]
    unfold cString
    rw [takeWhile_append_all]
    · rw [List.takeWhile_replicate]
      simp
    · intro x hx
      have hmem : x ∈ msg := List.take_subset 255 msg hx
      simp only [decide_eq_true_eq]
      intro hx0
      exact h (hx0 ▸ hmem)

/-- C8 witness: a concrete code and message stored over two distinct
previous error slots. -/
theorem c8_seterror_truncates_witness :
    (0 : Nat) ∉ strBytes "Invalid handle" ∧
    SetErrorSpec 20 (strBytes "Invalid handle") :=
  ⟨by decide, c8_seterror_truncates 20 (strBytes "Invalid handle") (by decide)⟩

-- ===========================================================================
-- Characterization of a successful Process call
-- ===========================================================================

/-- Pointer/count agreement of the conversion output. -/
theorem ConvertLandmarks_ptr_iff (l : List SrcLandmark) :
    (ConvertLandmarks l).1 ≠ none ↔ 0 < (ConvertLandmarks l).2 := by
  rw [ConvertLandmarks_count, ne_eq, ConvertLandmarks_fst_eq_none_iff]
  omega

/-- Full characterization of one collection pass over a cleared record:
each channel is filled from its own packet alone, face and pose flags come
from the converted counts, and the hands flag records packet presence on
either hand stream. -/
theorem FetchResults_char (f lh rh p pw : Option (List SrcLandmark)) :
    FetchResults ⟨f, lh, rh, p, pw⟩ zeroResults =
      { face_landmarks := match f with
          | none => none | some l => (ConvertLandmarks l).1
        face_count := match f with
          | none => 0 | some l => (ConvertLandmarks l).2
        face_detected := match f with
          | none => false | some l => decide (0 < (ConvertLandmarks l).2)
        left_hand_landmarks := match lh with
          | none => none | some l => (ConvertLandmarks l).1
        left_hand_count := match lh with
          | none => 0 | some l => (ConvertLandmarks l).2
        right_hand_landmarks := match rh with
          | none => none | some l => (ConvertLandmarks l).1
        right_hand_count := match rh with
          | none => 0 | some l => (ConvertLandmarks l).2
        pose_landmarks := match p with
          | none => none | some l => (ConvertLandmarks l).1
        pose_count := match p with
          | none => 0 | some l => (ConvertLandmarks l).2
        pose_detected := match p with
          | none => false | some l => decide (0 < (ConvertLandmarks l).2)
        pose_world_landmarks := match pw with
          | none => none | some l => (ConvertWorldLandmarks l).1
        pose_world_count := match pw with
          | none => 0 | some l => (ConvertWorldLandmarks l).2
        hands_detected := lh.isSome || rh.isSome
        timestamp_ms := 0
        processing_time_ms := 0 } := by
  cases f <;> cases lh <;> cases rh <;> cases p <;> cases pw <;> rfl

/-- A process call that returns true went through the valid-argument,
successful-submission path, and its record is the collection pass over the
cleared record plus the two metadata fields. -/
theorem processImpl_success_record (pixelsNull resultsNull submitOk : Bool)
    (submitMsg : List Nat) (outs : ChannelOutputs) (ptime : Rat)
    (fc : Int) (results : MPResults) (err : MPError)
    (h : (ProcessImpl pixelsNull resultsNull submitOk submitMsg outs ptime
        fc results err).1 = true) :
    (ProcessImpl pixelsNull resultsNull submitOk submitMsg outs ptime
        fc results err).2.2.1 =
      { FetchResults outs zeroResults with
          processing_time_ms := ptime, timestamp_ms := fc.tdiv 1000 } := by
  cases pixelsNull <;> cases resultsNull <;> cases submitOk <;>
    first
    | rfl
    | simp [ProcessImpl] at h

-- ===========================================================================
-- Claim C9
-- ===========================================================================

/-- Per-channel invariant: the array pointer is non-null exactly when the
count is strictly positive. -/
def pointerCountInv (r : MPResults) : Prop :=
  (r.face_landmarks ≠ none ↔ 0 < r.face_count) ∧
  (r.left_hand_landmarks ≠ none ↔ 0 < r.left_hand_count) ∧
  (r.right_hand_landmarks ≠ none ↔ 0 < r.right_hand_count) ∧
  (r.pose_landmarks ≠ none ↔ 0 < r.pose_count) ∧
  (r.pose_world_landmarks ≠ none ↔ 0 < r.pose_world_count)

/-- C9: after every successful process call, and after every release, each
of the five channels has a non-null array pointer exactly when its count
is strictly positive. -/
theorem c9_pointer_count_invariant (handle : Option Int)
    (pixelsNull resultsNull submitOk : Bool) (submitMsg : List Nat)
    (outs : ChannelOutputs) (ptime : Rat) (results : MPResults)
    (err : MPError)
    (h : (MP_Process handle pixelsNull resultsNull submitOk submitMsg outs
        ptime results err).1 = true) :
    pointerCountInv (MP_Process handle pixelsNull resultsNull submitOk
        submitMsg outs ptime results err).2.2.1 ∧
    (∀ r r2 : MPResults,
      (MP_ReleaseResults (some r)).1 = some r2 → pointerCountInv r2) := by
  constructor
  · cases handle with
    | none => simp [MP_Process] at h
    | some fc =>
      have h2 : (ProcessImpl pixelsNull resultsNull submitOk submitMsg outs
          ptime fc results err).1 = true := h
      show pointerCountInv (ProcessImpl pixelsNull resultsNull submitOk
          submitMsg outs ptime fc results err).2.2.1
      rw [processImpl_success_record _ _ _ _ _ _ _ _ _ h2]
      obtain ⟨f, lh, rh, p, pw⟩ := outs
      rw [FetchResults_char]
      refine ⟨?_, ?_, ?_, ?_, ?_⟩
      · cases f <;> simp [ConvertLandmarks_ptr_iff]
      · cases lh <;> simp [ConvertLandmarks_ptr_iff]
      · cases rh <;> simp [ConvertLandmarks_ptr_iff]
      · cases p <;> simp [ConvertLandmarks_ptr_iff]
      · cases pw <;> simp [ConvertWorldLandmarks_eq, ConvertLandmarks_ptr_iff]
  · intro r r2 hr
    have : r2 = zeroResults := by
      simpa [MP_ReleaseResults] using hr.symm
    subst this
    exact ⟨by simp [zeroResults], by simp [zeroResults], by simp [zeroResults],
      by simp [zeroResults], by simp [zeroResults]⟩

/-- C9 witness: a successful call in which the face channel delivered one
landmark and the other channels delivered nothing. -/
theorem c9_pointer_count_invariant_witness :
    (MP_Process (some 0) false false true []
        ⟨some [⟨0, 0, 0, none, none⟩], none, none, none, none⟩ 0 zeroResults
        initialError).1 = true ∧
    (pointerCountInv (MP_Process (some 0) false false true []
        ⟨some [⟨0, 0, 0, none, none⟩], none, none, none, none⟩ 0 zeroResults
        initialError).2.2.1 ∧
     (∀ r r2 : MPResults,
       (MP_ReleaseResults (some r)).1 = some r2 → pointerCountInv r2)) :=
  ⟨by decide, c9_pointer_count_invariant _ _ _ _ _ _ _ _ _ (by decide)⟩

-- ===========================================================================
-- Claim C1
-- ===========================================================================

/-- Poll outcome in which the left-hand stream delivered a packet whose
landmark list is empty and no other stream delivered anything. -/
def leftHandEmptyOuts : ChannelOutputs :=
  { face := none, left_hand := some [], right_hand := none,
    pose := none, pose_world := none }

/-- C1 counterexample: a successful process call in which the left-hand
stream delivered a packet with zero landmarks yields a record with
hands_detected true while both hand counts are 0, so hands_detected is
not equivalent to a hand count being at least 1. -/
theorem c1_counterexample :
    (MP_Process (some 0) false false true [] leftHandEmptyOuts 0 zeroResults
        initialError).1 = true ∧
    ¬ ((MP_Process (some 0) false false true [] leftHandEmptyOuts 0
          zeroResults initialError).2.2.1.hands_detected = true ↔
        (1 ≤ (MP_Process (some 0) false false true [] leftHandEmptyOuts 0
            zeroResults initialError).2.2.1.left_hand_count ∨
         1 ≤ (MP_Process (some 0) false false true [] leftHandEmptyOuts 0
            zeroResults initialError).2.2.1.right_hand_count)) := by
  decide

/-- Detection-flag contract actually implemented by the collection pass:
face and pose flags are equivalent to their counts being at least 1 (the
world-pose count gates nothing), a hand count of at least 1 forces
hands_detected, and hands_detected is exactly packet presence on either
hand stream, so it may also be true with both hand counts 0. -/
def DetectionFlagsSpec (outs : ChannelOutputs) (r : MPResults) : Prop :=
  (r.face_detected = true ↔ 1 ≤ r.face_count) ∧
  (r.pose_detected = true ↔ 1 ≤ r.pose_count) ∧
  ((1 ≤ r.left_hand_count ∨ 1 ≤ r.right_hand_count) →
    r.hands_detected = true) ∧
  (r.hands_detected = true ↔
    (outs.left_hand ≠ none ∨ outs.right_hand ≠ none))

/-- C1 amended: for every successful process call, face_detected is true
exactly when face_count is at least 1 and pose_detected is true exactly
when pose_count is at least 1 (pose_world_count gates nothing), while
hands_detected is true exactly when a packet arrived on either hand
stream: it is implied by a hand count of at least 1 but can also be true
with both hand counts 0 when a hand packet carried zero landmarks. -/
theorem c1_detection_flags (handle : Option Int)
    (pixelsNull resultsNull submitOk : Bool) (submitMsg : List Nat)
    (outs : ChannelOutputs) (ptime : Rat) (results : MPResults)
    (err : MPError)
    (h : (MP_Process handle pixelsNull resultsNull submitOk submitMsg outs
        ptime results err).1 = true) :
    DetectionFlagsSpec outs (MP_Process handle pixelsNull resultsNull
        submitOk submitMsg outs ptime results err).2.2.1 := by
  cases handle with
  | none => simp [MP_Process] at h
  | some fc =>
    have h2 : (ProcessImpl pixelsNull resultsNull submitOk submitMsg outs
        ptime fc results err).1 = true := h
    show DetectionFlagsSpec outs (ProcessImpl pixelsNull resultsNull
        submitOk submitMsg outs ptime fc results err).2.2.1
    rw [processImpl_success_record _ _ _ _ _ _ _ _ _ h2]
    obtain ⟨f, lh, rh, p, pw⟩ := outs
    rw [FetchResults_char]
    refine ⟨?_, ?_, ?_, ?_⟩
    · cases f <;> simp [ConvertLandmarks_count, Nat.succ_le_iff]
    · cases p <;> simp [ConvertLandmarks_count, Nat.succ_le_iff]
    · cases lh <;> cases rh <;> simp
    · cases lh <;> cases rh <;> simp

/-- C1 witness: a successful call in which the face stream delivered one
landmark and the right-hand stream delivered a packet with two landmarks. -/
theorem c1_detection_flags_witness :
    (MP_Process (some 5) false false true []
        ⟨some [⟨0, 0, 0, none, none⟩], none,
          some [⟨1, 0, 0, some 1, none⟩, ⟨0, 1, 0, none, some 1⟩], none,
          none⟩ 0 zeroResults initialError).1 = true ∧
    DetectionFlagsSpec
      ⟨some [⟨0, 0, 0, none, none⟩], none,
        some [⟨1, 0, 0, some 1, none⟩, ⟨0, 1, 0, none, some 1⟩], none, none⟩
      (MP_Process (some 5) false false true []
        ⟨some [⟨0, 0, 0, none, none⟩], none,
          some [⟨1, 0, 0, some 1, none⟩, ⟨0, 1, 0, none, some 1⟩], none,
          none⟩ 0 zeroResults initialError).2.2.1 :=
  ⟨by decide, c1_detection_flags _ _ _ _ _ _ _ _ _ (by decide)⟩

-- ===========================================================================
-- Claim C2
-- ===========================================================================

/-- Poll outcome in which no stream delivered a packet. -/
def noOuts : ChannelOutputs :=
  { face := none, left_hand := none, right_hand := none,
    pose := none, pose_world := none }

/-- Unfolding of one step of a run of successful calls. -/
theorem runProcess_succ (outs : ChannelOutputs) (n : Nat) (fc : Int) :
    runProcess outs (n + 1) fc =
      (ProcessImpl false false true [] outs 0 fc zeroResults
        initialError).2.2.1 :: runProcess outs n (fc + 1) := rfl

/-- The record of a valid successful call reports the pre-increment
counter value divided by 1000 (C++ int64 division truncates toward
zero). -/
theorem processImpl_reported_timestamp (outs : ChannelOutputs) (fc : Int) :
    (ProcessImpl false false true [] outs 0 fc zeroResults
      initialError).2.2.1.timestamp_ms = fc.tdiv 1000 := rfl

/-- Closed form of the reported timestamp sequence of a run of successful
calls: call k reports (fc + k).tdiv 1000. -/
theorem reportedTimestamps_eq (outs : ChannelOutputs) (n : Nat) :
    ∀ fc : Int, reportedTimestamps outs n fc =
      (List.range n).map (fun k : Nat => (fc + (k : Int)).tdiv 1000) := by
  induction n with
  | zero => intro fc; rfl
  | succ n ih =>
    intro fc
    show (runProcess outs (n + 1) fc).map MPResults.timestamp_ms = _
    rw [runProcess_succ, List.map_cons, processImpl_reported_timestamp]
    have h2 : (runProcess outs n (fc + 1)).map MPResults.timestamp_ms =
        (List.range n).map (fun k : Nat => (fc + 1 + (k : Int)).tdiv 1000) :=
      ih (fc + 1)
    rw [h2, List.range_succ_eq_map, List.map_cons, List.map_map]
    refine congrArg₂ _ (by simp) ?_
    refine List.map_congr_left ?_
    intro k _
    simp only [Function.comp_apply, Nat.succ_eq_add_one]
    refine congrArg₂ _ ?_ rfl
    push_cast
    ring

/-- Truncating division by 1000 is monotone on nonnegative values. -/
theorem tdiv1000_mono {a b : Int} (ha : 0 ≤ a) (hab : a ≤ b) :
    a.tdiv 1000 ≤ b.tdiv 1000 := by
  rw [Int.tdiv_eq_ediv ha (by norm_num),
    Int.tdiv_eq_ediv (le_trans ha hab) (by norm_num)]
  exact Int.ediv_le_ediv (by norm_num) hab

/-- C2 counterexample: two consecutive successful calls on a freshly
created processor (counter 0) both succeed and both report timestamp_ms
0, so the reported sequence is not strictly increasing. -/
theorem c2_counterexample :
    (ProcessImpl false false true [] noOuts 0 0 zeroResults
        initialError).1 = true ∧
    (ProcessImpl false false true [] noOuts 0 1 zeroResults
        initialError).1 = true ∧
    reportedTimestamps noOuts 2 0 = [0, 0] ∧
    ¬ List.Pairwise (fun a b : Int => a < b)
        (reportedTimestamps noOuts 2 0) := by
  decide

/-- Behaviour of the reported timestamp sequence actually implemented:
over N consecutive successful calls from counter value fc, call k reports
(fc + k).tdiv 1000, so starting from a freshly created processor
(fc not negative) the reported sequence is non-decreasing; each value
repeats for 1000 consecutive frames rather than increasing strictly. -/
def ReportedTimestampsSpec (outs : ChannelOutputs) (n : Nat)
    (fc : Int) : Prop :=
  (reportedTimestamps outs n fc).length = n ∧
  (∀ k, k < n →
    (reportedTimestamps outs n fc)[k]? = some ((fc + (k : Int)).tdiv 1000)) ∧
  List.Pairwise (fun a b : Int => a ≤ b) (reportedTimestamps outs n fc)

/-- C2 amended: over every sequence of N consecutive successful process
calls on one instance whose counter is nonnegative (as it always is,
starting from 0 at creation), the reported timestamp_ms of call k is the
counter value at that call divided by 1000 with truncation; the sequence
is therefore non-decreasing, but it repeats each value 1000 times instead
of increasing strictly, while the underlying counter itself advances by
exactly 1 per call. -/
theorem c2_reported_timestamps (outs : ChannelOutputs) (n : Nat) (fc : Int)
    (hfc : 0 ≤ fc) : ReportedTimestampsSpec outs n fc := by
  refine ⟨?_, ?_, ?_⟩
  · rw [reportedTimestamps_eq]
    simp
  · intro k hk
    rw [reportedTimestamps_eq]
    rw [List.getElem?_map, List.getElem?_range hk]
    rfl
  · rw [reportedTimestamps_eq]
    rw [List.pairwise_map]
    rw [List.pairwise_iff_getElem]
    intro i j hi hj hij
    simp only [List.getElem_range]
    refine tdiv1000_mono (by omega) (by simp at hi hj; omega)

/-- C2 witness: three successful calls on a fresh processor. -/
theorem c2_reported_timestamps_witness :
    (0 : Int) ≤ 0 ∧ ReportedTimestampsSpec noOuts 3 0 :=
  ⟨by decide, c2_reported_timestamps noOuts 3 0 (by decide)⟩
